import Mathlib

/-!
Verification of the mlflow-export-import import pipeline.

Shallow embedding of the code under `mlflow_export_import/`:
* `common/filesystem.py` — path translation (`mk_dbfs_path` / `mk_local_path`,
  both implemented with Python `str.replace`) and the
  `DatabricksFileSystem.move_artifacts` context manager;
* `common/mlflow_utils.py` — `set_experiment` (idempotent create);
* `run/import_run.py` — `RunImporter._import_run` and
  `RunImporter._update_mlmodel_run_id`;
* `experiment/import_experiment.py` — `ExperimentImporter.import_experiment`.

External collaborators (tracking-backend client, `dbutils.fs`, the manifest
codec, `find_artifacts`, `run_data_importer`) are modelled as oracle inputs:
their observable answers and failure modes are parameters of the model.
-/

namespace MlflowEI

/-! ## Python `str.replace`

`mk_dbfs_path` and `mk_local_path` (filesystem.py lines 10-15) are
`path.replace("/dbfs","dbfs:")` and `path.replace("dbfs:","/dbfs")`.
Python `str.replace` substitutes every non-overlapping occurrence of the
pattern, scanning left to right.  We model it on the character list with a
fuel argument (one unit of fuel per scan step; fuel = length of the string
suffices for any non-empty pattern), so the function is structural and
computable by the kernel. -/

def replaceFuel (pat rep : List Char) : Nat → List Char → List Char
  | _, [] => []
  | 0, s => s
  | fuel + 1, c :: rest =>
    if pat.isPrefixOf (c :: rest) then
      rep ++ replaceFuel pat rep fuel ((c :: rest).drop pat.length)
    else
      c :: replaceFuel pat rep fuel rest

/-- Python `s.replace(pat, rep)` for a non-empty `pat`. -/
def pyReplace (s pat rep : String) : String :=
  ⟨replaceFuel pat.data rep.data s.data.length s.data⟩

/-- filesystem.py line 10-11: `path.replace("/dbfs","dbfs:")`. -/
def mk_dbfs_path (path : String) : String :=
  pyReplace path "/dbfs" "dbfs:"

/-- filesystem.py line 14-15: `path.replace("dbfs:","/dbfs")`. -/
def mk_local_path (path : String) : String :=
  pyReplace path "dbfs:" "/dbfs"

/-- `pat` occurs as a contiguous substring of `s`. -/
def containsSub (pat : List Char) : List Char → Bool
  | [] => pat.isPrefixOf []
  | c :: rest => pat.isPrefixOf (c :: rest) || containsSub pat rest

/-- `pre` is a prefix of `s` (Python `s.startswith(pre)`). -/
def strStartsWith (pre s : String) : Bool :=
  pre.data.isPrefixOf s.data

/-! ## Exceptions, run status, and observable events

`Exc.empty` models `EmptyExperimentPathException` (filesystem.py line 18);
`Exc.generic cause` models any other Python exception, carrying its message. -/

inductive Exc where
  | empty
  | generic (cause : String)
  deriving DecidableEq

deriving instance DecidableEq for Except

inductive RunStatus where
  | RUNNING
  | FINISHED
  | FAILED
  deriving DecidableEq

/-- Observable calls made against the backing store and the tracking backend
while importing one run.  `lsCheck` is the `dbutils.fs.ls` probe of
`move_artifacts`, `cpStage`/`rmStage` are the staging copy and its removal,
`logArtifacts` is the bulk `log_artifacts` upload. -/
inductive Event where
  | createRun
  | importRunData
  | lsCheck
  | cpStage
  | rmStage
  | patchEvt
  | logArtifacts
  | setTerminated (s : RunStatus)
  | getRun
  | deleteRun
  deriving DecidableEq

/-! ## `DatabricksFileSystem.move_artifacts` (filesystem.py lines 41-52)

```
@contextlib.contextmanager
def move_artifacts(self, path):
    if path.startswith("s3:/"):
        tmp_dst_path = path.replace("s3://", "/dbfs/temp/")
        current_src_path_contents = self.dbutils.fs.ls(mk_dbfs_path(path.replace("/artifacts", "")))
        if len(current_src_path_contents) <=1:
            raise EmptyExperimentPathException
        self.dbutils.fs.cp(mk_dbfs_path(path), mk_dbfs_path(tmp_dst_path), True)
        yield tmp_dst_path
        self.dbutils.fs.rm(mk_dbfs_path(tmp_dst_path), True)
    else:
        yield mk_local_path(path)
```

The generator has no `try/finally`: if the caller's body raises at the
`yield`, the exception propagates through the generator frame and the
`rm` after the `yield` is never executed.  The model makes the body an
explicit argument returning its own events and outcome; `parentLs` is the
answer of the external `dbutils.fs.ls` on `path.replace("/artifacts","")`. -/

def move_artifacts_model (parentLs : List String) (path : String)
    (body : String → List Event × Except Exc Unit) : List Event × Except Exc Unit :=
  if strStartsWith "s3:/" path then
    if parentLs.length ≤ 1 then
      ([Event.lsCheck], Except.error Exc.empty)
    else
      match body (pyReplace path "s3://" "/dbfs/temp/") with
      | (be, Except.ok ()) =>
        (Event.lsCheck :: Event.cpStage :: (be ++ [Event.rmStage]), Except.ok ())
      | (be, Except.error e) =>
        (Event.lsCheck :: Event.cpStage :: be, Except.error e)
  else
    body (mk_local_path path)

/-! ## Object store model for the `dbutils.fs.ls` probe

The external object store is a set of object paths; `dbutilsLs` lists the
distinct immediate children of a directory, as `dbutils.fs.ls` does. -/

def strDrop (s : String) (n : Nat) : String :=
  ⟨s.data.drop n⟩

/-- The part of `s` up to (excluding) the first `/`. -/
def firstSeg (s : String) : String :=
  ⟨s.data.takeWhile (fun c => c ≠ '/')⟩

def childName (dir obj : String) : Option String :=
  if strStartsWith (dir ++ "/") obj then
    some (firstSeg (strDrop obj (dir ++ "/").length))
  else
    none

def dbutilsLs (store : List String) (dir : String) : List String :=
  (store.filterMap (childName dir)).dedup

/-- Number of store objects addressable under `path`. -/
def objectsUnder (store : List String) (path : String) : Nat :=
  (store.filter (fun o => strStartsWith (path ++ "/") o)).length

/-- `move_artifacts` with the `ls` answer computed from an explicit object
store: the code probes `path.replace("/artifacts","")`, i.e. the parent of
the staged subtree, not the staged path itself. -/
def move_artifacts_store (store : List String) (path : String)
    (body : String → List Event × Except Exc Unit) : List Event × Except Exc Unit :=
  move_artifacts_model (dbutilsLs store (pyReplace path "/artifacts" "")) path body

/-! ## `RunImporter._import_run` (import_run.py lines 122-174)

The external collaborators are oracle fields of `ImportEnv`:
* `importDataErr` — outcome of `run_data_importer.import_run_data`
  (`none` = succeeds, `some c` = raises an exception with message `c`);
* `mlmodelPaths` — the answer of `find_artifacts(run_id, "", "MLmodel")`
  (line 143 and line 186 make the same query);
* `parentLs` — the `dbutils.fs.ls` answer inside `move_artifacts`;
* `patchErr` / `logArtifactsErr` — outcomes of `_update_mlmodel_run_id`
  and `mlflow_client.log_artifacts`;
* `stagedExists` — `os.path.exists(mk_local_path(path_name))` (line 152);
* `mkdirsErr` — outcome of `mlflow_utils.create_workspace_dir` during the
  notebook upload (its `dbx_client.post` raises the repository's domain
  exception on failure, per the propagation policy); the `workspace/import`
  post itself is caught in `_upload_databricks_notebook` and never
  propagates. -/

structure ImportEnv where
  runId : String
  expName : String
  artifactsPath : String
  parentLs : List String
  mlmodelPaths : List String
  importDataErr : Option String
  mlmodelFix : Bool
  patchErr : Option String
  stagedExists : Bool
  logArtifactsErr : Option String
  lifecycleDeleted : Bool
  parentTag : Option String
  importingIntoDatabricks : Bool
  dstNotebookDir : Option String
  srcNotebookTag : Option String
  notebookFileExists : Bool
  mkdirsErr : Option String

/-- Second half of the `with move_artifacts(...)` body (lines 152-154):
`if os.path.exists(mk_local_path(path_name)): log_artifacts(...)`. -/
def bodyLog (env : ImportEnv) (acc : List Event) : List Event × Except Exc Unit :=
  if env.stagedExists then
    match env.logArtifactsErr with
    | some c => (acc ++ [Event.logArtifacts], Except.error (Exc.generic c))
    | none => (acc ++ [Event.logArtifacts], Except.ok ())
  else
    (acc, Except.ok ())

/-- The `with move_artifacts(...)` body (lines 145-154): optional MLmodel
patching, then the conditional bulk upload. -/
def bodyRun (env : ImportEnv) : String → List Event × Except Exc Unit := fun _ =>
  if env.mlmodelFix then
    match env.patchErr with
    | some c => ([Event.patchEvt], Except.error (Exc.generic c))
    | none => bodyLog env [Event.patchEvt]
  else
    bodyLog env []

/-- The guarded block of `_import_run` (lines 131-162 up to the artifact
upload): data replay, then — when `find_artifacts` returned any MLmodel
path — the staged artifact relocation. -/
def tryBlock (env : ImportEnv) : List Event × Except Exc Unit :=
  match env.importDataErr with
  | some c => ([Event.importRunData], Except.error (Exc.generic c))
  | none =>
    if env.mlmodelPaths.isEmpty then
      ([Event.importRunData], Except.ok ())
    else
      match move_artifacts_model env.parentLs env.artifactsPath (bodyRun env) with
      | (me, r) => (Event.importRunData :: me, r)

/-- `_upload_databricks_notebook` (lines 214-245), reached from lines
170-172 only when `utils.importing_into_databricks()` and a destination
notebook directory were given.  A missing source tag or a missing exported
notebook file is logged and skipped; `create_workspace_dir` may raise; the
final `workspace/import` post is wrapped in `try/except` and never
propagates. -/
def notebookPhase (env : ImportEnv) : Except String Unit :=
  if env.importingIntoDatabricks ∧ env.dstNotebookDir.isSome then
    match env.srcNotebookTag with
    | none => Except.ok ()
    | some _ =>
      if env.notebookFileExists then
        match env.mkdirsErr with
        | some c => Except.error c
        | none => Except.ok ()
      else
        Except.ok ()
  else
    Except.ok ()

/-- How `_import_run` terminates. `raisedWrapped cause runId expName` is the
`MlflowExportImportException(e, f"Importing run {run_id} of experiment
'{exp.name}' failed")` re-raise of line 169; `raisedUnwrapped` is an
exception escaping the notebook phase after the terminal status was set. -/
inductive Outcome where
  | ok (returnedStatus : RunStatus) (parent : Option String)
  | raisedWrapped (cause runId expName : String)
  | raisedUnwrapped (cause : String)
  deriving DecidableEq

structure ImportResult where
  trace : List Event
  backendStatus : RunStatus
  backendDeleted : Bool
  outcome : Outcome
  deriving DecidableEq

/-- `_import_run` after the destination run has been created (line 129):
the guarded block, the two `except` arms (lines 163-169), the optional
notebook upload, and the `return (run, src_run_dct["tags"].get(...))`.
`backendStatus` is the status the tracking backend holds for the created
run when control leaves `_import_run`; the first component of `Outcome.ok`
is the status reported by the returned run object. -/
def importRunModel (env : ImportEnv) : ImportResult :=
  match tryBlock env with
  | (te, Except.ok ()) =>
    let traceFin := (Event.createRun :: te) ++ [Event.setTerminated RunStatus.FINISHED, Event.getRun]
    let traceDel := if env.lifecycleDeleted then traceFin ++ [Event.deleteRun, Event.getRun] else traceFin
    match notebookPhase env with
    | Except.error c =>
      { trace := traceDel, backendStatus := RunStatus.FINISHED,
        backendDeleted := env.lifecycleDeleted, outcome := Outcome.raisedUnwrapped c }
    | Except.ok () =>
      { trace := traceDel, backendStatus := RunStatus.FINISHED,
        backendDeleted := env.lifecycleDeleted,
        outcome := Outcome.ok RunStatus.FINISHED env.parentTag }
  | (te, Except.error Exc.empty) =>
    let traceE := (Event.createRun :: te) ++ [Event.setTerminated RunStatus.FAILED]
    match notebookPhase env with
    | Except.error c =>
      { trace := traceE, backendStatus := RunStatus.FAILED,
        backendDeleted := false, outcome := Outcome.raisedUnwrapped c }
    | Except.ok () =>
      { trace := traceE, backendStatus := RunStatus.FAILED,
        backendDeleted := false, outcome := Outcome.ok RunStatus.RUNNING env.parentTag }
  | (te, Except.error (Exc.generic c)) =>
    { trace := (Event.createRun :: te) ++ [Event.setTerminated RunStatus.FAILED],
      backendStatus := RunStatus.FAILED, backendDeleted := false,
      outcome := Outcome.raisedWrapped c env.runId env.expName }

/-! ## Association lists (Python `dict` access) -/

def alookup {α : Type} : List (String × α) → String → Option α
  | [], _ => none
  | (k, v) :: rest, key => if k = key then some v else alookup rest key

/-- Python `dict` assignment `m[k] = v`: overwrite in place if the key
exists, append otherwise (insertion order preserved). -/
def dictInsert {α : Type} : List (String × α) → String → α → List (String × α)
  | [], k, v => [(k, v)]
  | (k', v') :: rest, k, v =>
    if k' = k then (k, v) :: rest else (k', v') :: dictInsert rest k v

/-! ## `set_experiment` (mlflow_utils.py lines 21-40)

The tracking backend's experiment registry is a name → id association
list plus a counter for fresh ids.  `create_experiment` raises
`RestException` with code `RESOURCE_ALREADY_EXISTS` when the name is
taken.  On that code `set_experiment` falls back to
`get_experiment_by_name`; any other `RestException` is wrapped and
re-raised.  Lines 27-28: when importing into Databricks the workspace
directory is created first, which may itself raise. -/

inductive RestErr where
  | alreadyExists
  | other (code : String)
  deriving DecidableEq

inductive SetExpErr where
  | mkdirsFailed (cause : String)
  | cannotCreate (code : String)
  | lookupFailed
  deriving DecidableEq

structure ExpBackend where
  exps : List (String × String)
  counter : Nat
  deriving DecidableEq

def create_experiment (b : ExpBackend) (name : String) :
    Except RestErr (String × ExpBackend) :=
  if (alookup b.exps name).isSome then
    Except.error RestErr.alreadyExists
  else
    let id := "exp" ++ toString b.counter
    Except.ok (id, { exps := b.exps ++ [(name, id)], counter := b.counter + 1 })

def set_experiment (intoDbx : Bool) (mkdirsErr : Option String)
    (b : ExpBackend) (name : String) : Except SetExpErr (String × ExpBackend) :=
  match (if intoDbx then mkdirsErr else none) with
  | some c => Except.error (SetExpErr.mkdirsFailed c)
  | none =>
    match create_experiment b name with
    | Except.ok (id, b2) => Except.ok (id, b2)
    | Except.error RestErr.alreadyExists =>
      match alookup b.exps name with
      | some id => Except.ok (id, b)
      | none => Except.error SetExpErr.lookupFailed
    | Except.error (RestErr.other code) => Except.error (SetExpErr.cannotCreate code)

/-! ## `RunImporter._update_mlmodel_run_id` (import_run.py lines 177-211)

For every path in `find_artifacts(run_id, "", "MLmodel")` the code loads
the manifest, sets `mlmodel["run_id"] = run_id` and
`mlmodel["artifact_path"] = f"artifacts/{mlmodel['artifact_path']}"`, and
writes the patched file back to the model path.  The run's artifact files
are modelled as a map from path to manifest content. -/

structure MLmodel where
  run_id : String
  artifact_path : String
  deriving DecidableEq

/-- Lines 204-205: the two field rewrites applied to one manifest. -/
def patchMLmodel (m : MLmodel) (runId : String) : MLmodel :=
  { run_id := runId, artifact_path := "artifacts/" ++ m.artifact_path }

/-- The loop of lines 188-211: patch and write back each discovered
manifest in order. -/
def update_mlmodel_run_id (runId : String) :
    List String → (String → Option MLmodel) → (String → Option MLmodel)
  | [], store => store
  | p :: ps, store =>
    update_mlmodel_run_id runId ps
      (fun q => if q = p then (store p).map (fun m => patchMLmodel m runId) else store q)

/-! ## `ExperimentImporter.import_experiment` (import_experiment.py lines 79-130)

`run_ids = exp_dct["runs"]; run_ids.reverse()` then one `import_run` per
id, filling `run_info_map[src_run_id] = dst_run.info`.  The per-run
importer is the oracle `imp` (the claim concerns a successful call, so
every `import_run` returns). -/

def importOrder (runIds : List String) : List String :=
  runIds.reverse

def importExperimentModel (imp : String → String) (runIds : List String) :
    List (String × String) :=
  (importOrder runIds).foldl (fun acc r => dictInsert acc r (imp r)) []

/-! ## The nested-run linking pass -/

/-- One entry of the ID Mapping built during an experiment import:
`run_ids_map[src_run_id] = { "dst_run_id": ..., "src_parent_run_id": ... }`
(import_experiment.py line 123). -/
structure MapEntry where
  dstRunId : String
  srcParentRunId : Option String
  deriving DecidableEq

/-- One linking step for the entry `e`: when the source parent id is
present in the ID Mapping, overwrite the destination run's parent-run tag
with the mapped destination id; otherwise leave the tags unchanged. -/
def applyOne (full : List (String × MapEntry)) (tags : String → Option String)
    (e : MapEntry) : String → Option String :=
  match e.srcParentRunId with
  | none => tags
  | some p =>
    match alookup full p with
    | some pe => fun d => if d = e.dstRunId then some pe.dstRunId else tags d
    | none => tags

def nestedTagsGo (full : List (String × MapEntry)) :
    List (String × MapEntry) → (String → Option String) → (String → Option String)
  | [], tags => tags
  | (_, e) :: rest, tags => nestedTagsGo full rest (applyOne full tags e)

/-- Modelled from the spec: `utils.nested_tags` (module
`mlflow_export_import.common.utils`, called at import_experiment.py line
128) is not under `src/`.  The spec says the linking pass, for every
destination run whose source had a parent-tag, overwrites that tag with
the destination id the parent mapped to in the ID Mapping, and leaves the
tag unmodified, raising no error, when the parent id is absent from the
ID Mapping.  `tagOf` maps a destination run id to its current parent-run
tag value. -/
def nested_tags (runIdsMap : List (String × MapEntry))
    (tagOf : String → Option String) : String → Option String :=
  nestedTagsGo runIdsMap runIdsMap tagOf

/-! ## Concrete fixtures used by witnesses and counterexamples -/

/-- A caller body performing no store operation and succeeding. -/
def bodyNoop : String → List Event × Except Exc Unit :=
  fun _ => ([], Except.ok ())

/-- A caller body raising an ordinary exception at the `yield` point. -/
def bodyBoom : String → List Event × Except Exc Unit :=
  fun _ => ([], Except.error (Exc.generic "boom"))

/-- A run with no model artifacts whose notebook upload is configured and
whose workspace-directory creation fails. -/
def envNotebookFail : ImportEnv :=
  { runId := "run-dst-1", expName := "exp-1", artifactsPath := "/tmp/in/artifacts",
    parentLs := [], mlmodelPaths := [], importDataErr := none, mlmodelFix := true,
    patchErr := none, stagedExists := false, logArtifactsErr := none,
    lifecycleDeleted := false, parentTag := none,
    importingIntoDatabricks := true, dstNotebookDir := some "/Users/nb",
    srcNotebookTag := some "/Repos/src-nb", notebookFileExists := true,
    mkdirsErr := some "mkdirs failed" }

/-- A run whose data replay raises an ordinary exception. -/
def envDataFail : ImportEnv :=
  { runId := "run-dst-3", expName := "exp-1", artifactsPath := "/tmp/in/artifacts",
    parentLs := [], mlmodelPaths := [], importDataErr := some "boom",
    mlmodelFix := true, patchErr := none, stagedExists := false,
    logArtifactsErr := none, lifecycleDeleted := false, parentTag := none,
    importingIntoDatabricks := false, dstNotebookDir := none,
    srcNotebookTag := none, notebookFileExists := false, mkdirsErr := none }

/-- A run hitting the empty-path error: object-store artifact root whose
parent listing has a single entry; no notebook upload configured. -/
def envEmptyPath : ImportEnv :=
  { runId := "run-dst-2", expName := "exp-1",
    artifactsPath := "s3://bkt/run1/artifacts", parentLs := ["artifacts"],
    mlmodelPaths := ["model/MLmodel"], importDataErr := none, mlmodelFix := true,
    patchErr := none, stagedExists := true, logArtifactsErr := none,
    lifecycleDeleted := false, parentTag := some "src-parent",
    importingIntoDatabricks := false, dstNotebookDir := none,
    srcNotebookTag := none, notebookFileExists := false, mkdirsErr := none }

/-- The empty-path run of `envEmptyPath`, but with the notebook upload
configured and its workspace-directory creation failing. -/
def envEmptyPathNB : ImportEnv :=
  { runId := "run-dst-2", expName := "exp-1",
    artifactsPath := "s3://bkt/run1/artifacts", parentLs := ["artifacts"],
    mlmodelPaths := ["model/MLmodel"], importDataErr := none, mlmodelFix := true,
    patchErr := none, stagedExists := true, logArtifactsErr := none,
    lifecycleDeleted := false, parentTag := some "src-parent",
    importingIntoDatabricks := true, dstNotebookDir := some "/Users/nb",
    srcNotebookTag := some "/Repos/src-nb", notebookFileExists := true,
    mkdirsErr := some "mkdirs failed" }

/-- An object store where the staged subtree holds one object but the
probed parent directory lists exactly one entry. -/
def storeOneChild : List String :=
  ["s3://bkt/run1/artifacts/model/MLmodel"]

/-- An object store where the probed parent directory lists two entries. -/
def storeTwoChildren : List String :=
  ["s3://bkt/run1/run.json", "s3://bkt/run1/artifacts/model/MLmodel"]

/-- A one-file artifact store for the patcher witness. -/
def storeOneModel : String → Option MLmodel :=
  fun q => if q = "model/MLmodel" then some { run_id := "R-old", artifact_path := "model" } else none

/-- Per-run importer oracle for the experiment-import witness. -/
def impDst : String → String :=
  fun r => "dst-" ++ r

/-- ID Mapping fixture: run `s2` is a child of `s1`, run `s3` has a parent
absent from the mapping. -/
def mapC6 : List (String × MapEntry) :=
  [("s1", { dstRunId := "d1", srcParentRunId := none }),
   ("s2", { dstRunId := "d2", srcParentRunId := some "s1" }),
   ("s3", { dstRunId := "d3", srcParentRunId := some "missing" })]

/-- Replayed parent-tag values before the linking pass. -/
def tagC6 : String → Option String :=
  fun _ => some "orig-parent"

end MlflowEI

namespace MlflowEI

theorem list_isPrefixOf_append_self (l t : List Char) :
    l.isPrefixOf (l ++ t) = true := by
  induction l with
  | nil => simp [List.isPrefixOf]
  | cons a as ih => simp [List.isPrefixOf, ih]

theorem string_eq_of_data_eq (a b : String) (h : a.data = b.data) : a = b := by
  cases a; cases b; simp_all

theorem string_data_append (a b : String) : (a ++ b).data = a.data ++ b.data := by
  cases a; cases b; rfl

theorem replaceFuel_of_not_contains (pat rep : List Char)
    (fuel : Nat) (s : List Char) (hfuel : s.length ≤ fuel)
    (h : containsSub pat s = false) :
    replaceFuel pat rep fuel s = s := by
  induction fuel generalizing s with
  | zero =>
    cases s with
    | nil => rfl
    | cons c rest => simp at hfuel
  | succ n ih =>
    cases s with
    | nil => rfl
    | cons c rest =>
      simp only [containsSub, Bool.or_eq_false_iff] at h
      have hr := ih rest (by simpa using Nat.le_of_succ_le_succ hfuel) h.2
      simp [replaceFuel, h.1, hr]

theorem replaceFuel_head_match (pat rep : List Char) (hpat : pat ≠ [])
    (fuel : Nat) (t : List Char) :
    replaceFuel pat rep (fuel + 1) (pat ++ t) = rep ++ replaceFuel pat rep fuel t := by
  cases pat with
  | nil => exact absurd rfl hpat
  | cons p ps =>
    have hpre : (p :: ps).isPrefixOf ((p :: ps) ++ t) = true :=
      list_isPrefixOf_append_self _ _
    have hcons : (p :: ps) ++ t = p :: (ps ++ t) := rfl
    rw [hcons] at hpre ⊢
    simp only [replaceFuel, hpre, if_true]
    have hdrop : (p :: (ps ++ t)).drop (p :: ps).length = t := by
      rw [← hcons]
      exact List.drop_left _ _
    rw [hdrop]

/-- Replacing the marker `p` at the head of `p ++ s` by `r` yields `r ++ s`
when `s` itself contains no occurrence of `p`. -/
theorem pyReplace_marker (p r s : String)
    (hp : 0 < p.data.length)
    (h : containsSub p.data s.data = false) :
    pyReplace (p ++ s) p r = r ++ s := by
  apply string_eq_of_data_eq
  show replaceFuel p.data r.data (p ++ s).data.length (p ++ s).data = (r ++ s).data
  rw [string_data_append, string_data_append]
  have hlen : (p.data ++ s.data).length = (p.data.length - 1 + s.data.length) + 1 := by
    rw [List.length_append]; omega
  rw [hlen]
  rw [replaceFuel_head_match p.data r.data (by intro hnil; rw [hnil] at hp; simp at hp)]
  rw [replaceFuel_of_not_contains p.data r.data _ s.data (by omega) h]

/-! ## C9 — path translation -/

/-- C9 counterexample: translation is not lossless for every path.  The
object-store path `"dbfs:/dbfs"` translates to the local representation
`"/dbfs/dbfs"`, but translating back replaces both occurrences of the
local marker and yields `"dbfs:dbfs:"`, not the original string. -/
theorem path_translation_not_lossless :
    mk_local_path "dbfs:/dbfs" = "/dbfs/dbfs" ∧
    mk_dbfs_path (mk_local_path "dbfs:/dbfs") ≠ "dbfs:/dbfs" := by
  decide

/-- C9 (amended): path translation between the plain-filesystem and
object-store representations is bidirectional and lossless for every path
whose stem (the part after the `"/dbfs"` or `"dbfs:"` marker) contains no
further occurrence of either marker: translating to the other
representation and back yields the original string, the stem unchanged
and only the prefix differing. -/
theorem path_translation_roundtrip (s : String)
    (h1 : containsSub ("/dbfs").data s.data = false)
    (h2 : containsSub ("dbfs:").data s.data = false) :
    mk_local_path (mk_dbfs_path ("/dbfs" ++ s)) = "/dbfs" ++ s ∧
    mk_dbfs_path (mk_local_path ("dbfs:" ++ s)) = "dbfs:" ++ s := by
  have e1 : mk_dbfs_path ("/dbfs" ++ s) = "dbfs:" ++ s := by
    unfold mk_dbfs_path
    exact pyReplace_marker "/dbfs" "dbfs:" s (by decide) h1
  have e2 : mk_local_path ("dbfs:" ++ s) = "/dbfs" ++ s := by
    unfold mk_local_path
    exact pyReplace_marker "dbfs:" "/dbfs" s (by decide) h2
  exact ⟨by rw [e1, e2], by rw [e2, e1]⟩

/-- C9 witness: the stem `"/mnt/exp1"` contains neither marker, and both
round trips restore the original string. -/
theorem path_translation_roundtrip_witness :
    containsSub ("/dbfs").data ("/mnt/exp1" : String).data = false ∧
    containsSub ("dbfs:").data ("/mnt/exp1" : String).data = false ∧
    mk_local_path (mk_dbfs_path ("/dbfs" ++ "/mnt/exp1")) = "/dbfs" ++ "/mnt/exp1" ∧
    mk_dbfs_path (mk_local_path ("dbfs:" ++ "/mnt/exp1")) = "dbfs:" ++ "/mnt/exp1" :=
  ⟨by decide, by decide,
   (path_translation_roundtrip "/mnt/exp1" (by decide) (by decide)).1,
   (path_translation_roundtrip "/mnt/exp1" (by decide) (by decide)).2⟩

/-! ## C1 — staging cleanup in `move_artifacts` -/

/-- C1 counterexample: on an object-store path with a non-empty parent
listing, a body that raises at the `yield` leaves the staging copy behind:
the copy event is in the trace but the removal event is not, because the
generator has no `try/finally` around the `yield`. -/
theorem move_artifacts_leaks_staging_copy :
    Event.cpStage ∈ (move_artifacts_model ["a", "b"] "s3://bkt/run1/artifacts" bodyBoom).1 ∧
    Event.rmStage ∉ (move_artifacts_model ["a", "b"] "s3://bkt/run1/artifacts" bodyBoom).1 := by
  decide

/-- C1 (amended): whenever `move_artifacts` creates a staging copy, the
copy is removed before control returns if and only if the caller's body
completes without raising; when the body raises, the staged copy remains
on the backing store.  (`hbody` states that the body performs no staging
operation of its own.) -/
theorem move_artifacts_cleanup_iff_body_ok
    (parentLs : List String) (path : String)
    (body : String → List Event × Except Exc Unit)
    (hbody : ∀ p, Event.cpStage ∉ (body p).1 ∧ Event.rmStage ∉ (body p).1)
    (hcp : Event.cpStage ∈ (move_artifacts_model parentLs path body).1) :
    Event.rmStage ∈ (move_artifacts_model parentLs path body).1 ↔
      (body (pyReplace path "s3://" "/dbfs/temp/")).2 = Except.ok () := by
  unfold move_artifacts_model at hcp ⊢
  by_cases hs3 : strStartsWith "s3:/" path = true
  · rw [if_pos hs3] at hcp ⊢
    by_cases hlen : parentLs.length ≤ 1
    · rw [if_pos hlen] at hcp
      simp at hcp
    · rw [if_neg hlen] at hcp ⊢
      rcases hb : body (pyReplace path "s3://" "/dbfs/temp/") with ⟨be, br⟩
      have hrm := (hbody (pyReplace path "s3://" "/dbfs/temp/")).2
      rw [hb] at hrm
      rcases br with e | u
      · simp only at hrm
        simp [hrm]
      · cases u
        simp
  · rw [if_neg hs3] at hcp
    exact absurd hcp (hbody (mk_local_path path)).1

/-- C1 witness: a successful body on a staged object-store path — the copy
is created and the removal event is present. -/
theorem move_artifacts_cleanup_iff_body_ok_witness :
    Event.cpStage ∈ (move_artifacts_model ["a", "b"] "s3://bkt/run1/artifacts" bodyNoop).1 ∧
    (Event.rmStage ∈ (move_artifacts_model ["a", "b"] "s3://bkt/run1/artifacts" bodyNoop).1 ↔
      (bodyNoop (pyReplace "s3://bkt/run1/artifacts" "s3://" "/dbfs/temp/")).2 = Except.ok ()) :=
  ⟨by decide,
   move_artifacts_cleanup_iff_body_ok ["a", "b"] "s3://bkt/run1/artifacts" bodyNoop
     (fun p => ⟨by simp [bodyNoop], by simp [bodyNoop]⟩) (by decide)⟩

/-! ## C8 — when the empty-path error fires -/

/-- C8 counterexample: a staged path holding one addressable object still
raises the empty-path error, because the code probes the parent directory
(`path.replace("/artifacts","")`) and raises whenever that listing has at
most one entry — not only when the staged path resolves to zero objects. -/
theorem move_artifacts_empty_error_despite_objects :
    1 ≤ objectsUnder storeOneChild "s3://bkt/run1/artifacts" ∧
    (move_artifacts_store storeOneChild "s3://bkt/run1/artifacts" bodyNoop).2 =
      Except.error Exc.empty ∧
    Event.cpStage ∉ (move_artifacts_store storeOneChild "s3://bkt/run1/artifacts" bodyNoop).1 := by
  decide

/-- C8 (amended): on an object-store path, staging fails with the
empty-path error exactly when the listing of the probed parent directory
(the staged path with `"/artifacts"` removed) resolves to at most one
entry, and in that case no staging copy is created.  (`hbody` states that
the caller's body does not itself raise the empty-path error.) -/
theorem move_artifacts_empty_iff_parent_le_one
    (store : List String) (path : String)
    (body : String → List Event × Except Exc Unit)
    (hs3 : strStartsWith "s3:/" path = true)
    (hbody : ∀ p, (body p).2 ≠ Except.error Exc.empty) :
    ((move_artifacts_store store path body).2 = Except.error Exc.empty ↔
      (dbutilsLs store (pyReplace path "/artifacts" "")).length ≤ 1) ∧
    ((dbutilsLs store (pyReplace path "/artifacts" "")).length ≤ 1 →
      Event.cpStage ∉ (move_artifacts_store store path body).1) := by
  unfold move_artifacts_store move_artifacts_model
  rw [if_pos hs3]
  by_cases hlen : (dbutilsLs store (pyReplace path "/artifacts" "")).length ≤ 1
  · rw [if_pos hlen]
    simp [hlen]
  · rw [if_neg hlen]
    rcases hb : body (pyReplace path "s3://" "/dbfs/temp/") with ⟨be, br⟩
    have hne := hbody (pyReplace path "s3://" "/dbfs/temp/")
    rw [hb] at hne
    rcases br with e | u
    · simp only at hne
      constructor
      · constructor
        · intro hh
          simp only at hh
          exact absurd (by rw [hh]) hne
        · intro hh
          exact absurd hh hlen
      · intro hh
        exact absurd hh hlen
    · cases u
      constructor
      · constructor
        · intro hh
          simp at hh
        · intro hh
          exact absurd hh hlen
      · intro hh
        exact absurd hh hlen

/-! ## Shared: the guarded block under empty-path conditions -/

/-- When data replay succeeds, at least one MLmodel path was found, the
artifact root is object-store-backed, and the probed parent listing has at
most one entry, the guarded block of `_import_run` ends with the
empty-path error and no staging copy or upload happened. -/
theorem tryBlock_empty_of (env : ImportEnv)
    (hdata : env.importDataErr = none)
    (hml : env.mlmodelPaths.isEmpty = false)
    (hs3 : strStartsWith "s3:/" env.artifactsPath = true)
    (hls : env.parentLs.length ≤ 1) :
    tryBlock env = ([Event.importRunData, Event.lsCheck], Except.error Exc.empty) := by
  unfold tryBlock move_artifacts_model
  rw [hdata]
  simp [hml, hs3, hls]

/-! ## C2 — failure wrapping in `_import_run` -/

/-- C2 counterexample: an exception raised after the destination run has
been created can escape `_import_run` without the run being marked FAILED
and without the domain-exception wrapping: the notebook upload runs after
the terminal status is set, and a failure of its workspace-directory
creation propagates unwrapped while the run stays FINISHED. -/
theorem import_run_notebook_exception_escapes :
    (importRunModel envNotebookFail).outcome = Outcome.raisedUnwrapped "mkdirs failed" ∧
    (importRunModel envNotebookFail).backendStatus ≠ RunStatus.FAILED := by
  decide

/-- C2 (amended): a created destination run is never left in RUNNING
status, and every exception raised inside the guarded data/artifact import
block other than the empty-path error sets the run's terminal status to
FAILED and re-raises it wrapped in the domain exception carrying the
original cause, the destination run id and the experiment name.  (An
exception escaping the later optional notebook step propagates without
this wrapping, the terminal status already set.) -/
theorem import_run_failure_wrapping (env : ImportEnv) :
    (importRunModel env).backendStatus ≠ RunStatus.RUNNING ∧
    (∀ c, (tryBlock env).2 = Except.error (Exc.generic c) →
      (importRunModel env).backendStatus = RunStatus.FAILED ∧
      (importRunModel env).outcome = Outcome.raisedWrapped c env.runId env.expName) := by
  rcases h : tryBlock env with ⟨te, tr⟩
  unfold importRunModel
  rw [h]
  rcases tr with e | u
  · rcases e with _ | c0
    · rcases hnb : notebookPhase env with c2 | u2
      · exact ⟨by simp, fun c hc => by simp at hc⟩
      · cases u2
        exact ⟨by simp, fun c hc => by simp at hc⟩
    · refine ⟨by simp, fun c hc => ?_⟩
      simp only at hc
      rcases hc with ⟨⟩
      simp
  · cases u
    rcases hnb : notebookPhase env with c2 | u2
    · exact ⟨by simp, fun c hc => by simp at hc⟩
    · cases u2
      exact ⟨by simp, fun c hc => by simp at hc⟩

/-- C2 witness: a failing data replay — the run is marked FAILED and the
wrapped domain exception carries the cause, run id and experiment name. -/
theorem import_run_failure_wrapping_witness :
    (importRunModel envDataFail).backendStatus ≠ RunStatus.RUNNING ∧
    (tryBlock envDataFail).2 = Except.error (Exc.generic "boom") ∧
    (importRunModel envDataFail).backendStatus = RunStatus.FAILED ∧
    (importRunModel envDataFail).outcome =
      Outcome.raisedWrapped "boom" "run-dst-3" "exp-1" :=
  ⟨(import_run_failure_wrapping envDataFail).1, by decide,
   ((import_run_failure_wrapping envDataFail).2 "boom" (by decide)).1,
   ((import_run_failure_wrapping envDataFail).2 "boom" (by decide)).2⟩

/-! ## C3 — empty-path recovery in `_import_run` -/

/-- C3 counterexample: the empty-path error is raised during staging, yet
`_import_run` does not return normally, because the subsequent optional
notebook upload raises out of its workspace-directory creation. -/
theorem import_run_empty_path_can_still_raise :
    (tryBlock envEmptyPathNB).2 = Except.error Exc.empty ∧
    (importRunModel envEmptyPathNB).outcome = Outcome.raisedUnwrapped "mkdirs failed" := by
  decide

/-- C3 (amended): when the empty-path error is raised during artifact
staging and the optional notebook step does not itself raise,
`_import_run` sets the destination run's status to FAILED, performs no
bulk artifact upload, and returns normally so the caller can continue. -/
theorem import_run_empty_path_recovers (env : ImportEnv)
    (hdata : env.importDataErr = none)
    (hml : env.mlmodelPaths.isEmpty = false)
    (hs3 : strStartsWith "s3:/" env.artifactsPath = true)
    (hls : env.parentLs.length ≤ 1)
    (hnb : notebookPhase env = Except.ok ()) :
    (importRunModel env).backendStatus = RunStatus.FAILED ∧
    Event.logArtifacts ∉ (importRunModel env).trace ∧
    (importRunModel env).outcome = Outcome.ok RunStatus.RUNNING env.parentTag := by
  have htb := tryBlock_empty_of env hdata hml hs3 hls
  unfold importRunModel
  rw [htb, hnb]
  refine ⟨by simp, by simp, by simp⟩

/-- C3 witness: the empty-path run of `envEmptyPath` — status FAILED, no
bulk upload, normal return. -/
theorem import_run_empty_path_recovers_witness :
    envEmptyPath.importDataErr = none ∧
    envEmptyPath.parentLs.length ≤ 1 ∧
    notebookPhase envEmptyPath = Except.ok () ∧
    ((importRunModel envEmptyPath).backendStatus = RunStatus.FAILED ∧
     Event.logArtifacts ∉ (importRunModel envEmptyPath).trace ∧
     (importRunModel envEmptyPath).outcome =
       Outcome.ok RunStatus.RUNNING envEmptyPath.parentTag) :=
  ⟨rfl, by decide, by decide,
   import_run_empty_path_recovers envEmptyPath rfl (by decide) (by decide)
     (by decide) (by decide)⟩

/-! ## C10 — the returned run object in the empty-path case -/

/-- C10: in the empty-artifact-path case, whenever `_import_run` returns
normally the run object it returns is the snapshot captured at run
creation: its status still reads RUNNING, while the backend holds the
FAILED terminal status, because the run is re-fetched only on the success
path. -/
theorem import_run_empty_path_snapshot (env : ImportEnv)
    (s : RunStatus) (p : Option String)
    (hdata : env.importDataErr = none)
    (hml : env.mlmodelPaths.isEmpty = false)
    (hs3 : strStartsWith "s3:/" env.artifactsPath = true)
    (hls : env.parentLs.length ≤ 1)
    (hout : (importRunModel env).outcome = Outcome.ok s p) :
    s = RunStatus.RUNNING ∧ p = env.parentTag ∧
    (importRunModel env).backendStatus = RunStatus.FAILED := by
  have htb := tryBlock_empty_of env hdata hml hs3 hls
  unfold importRunModel at hout ⊢
  rw [htb] at hout ⊢
  rcases hnb : notebookPhase env with c | u
  · rw [hnb] at hout
    simp at hout
  · cases u
    rw [hnb] at hout
    simp only [Outcome.ok.injEq] at hout
    exact ⟨hout.1.symm, hout.2.symm, by simp⟩

/-- C10 witness: for `envEmptyPath` the returned status is RUNNING while
the backend status is FAILED. -/
theorem import_run_empty_path_snapshot_witness :
    (importRunModel envEmptyPath).outcome =
      Outcome.ok RunStatus.RUNNING (some "src-parent") ∧
    (RunStatus.RUNNING = RunStatus.RUNNING ∧
     (some "src-parent" : Option String) = envEmptyPath.parentTag ∧
     (importRunModel envEmptyPath).backendStatus = RunStatus.FAILED) :=
  ⟨by decide,
   import_run_empty_path_snapshot envEmptyPath RunStatus.RUNNING (some "src-parent")
     rfl (by decide) (by decide) (by decide) (by decide)⟩

/-- C8 witness: a parent directory listing two entries — the empty-path
error does not fire. -/
theorem move_artifacts_empty_iff_parent_le_one_witness :
    strStartsWith "s3:/" "s3://bkt/run1/artifacts" = true ∧
    (((move_artifacts_store storeTwoChildren "s3://bkt/run1/artifacts" bodyNoop).2 =
        Except.error Exc.empty) ↔
      (dbutilsLs storeTwoChildren (pyReplace "s3://bkt/run1/artifacts" "/artifacts" "")).length ≤ 1) :=
  ⟨by decide,
   (move_artifacts_empty_iff_parent_le_one storeTwoChildren "s3://bkt/run1/artifacts" bodyNoop
     (by decide) (fun p => by simp [bodyNoop])).1⟩

/-! ## C4 — reversed iteration and completeness of the run mapping -/

theorem dictInsert_of_not_mem {α : Type} (acc : List (String × α)) (k : String) (v : α)
    (h : k ∉ acc.map Prod.fst) : dictInsert acc k v = acc ++ [(k, v)] := by
  induction acc with
  | nil => rfl
  | cons hd tl ih =>
    rcases hd with ⟨k', v'⟩
    simp only [List.map_cons, List.mem_cons] at h
    push_neg at h
    simp only [dictInsert, List.cons_append]
    rw [if_neg (fun hh => h.1 hh.symm), ih h.2]

theorem foldl_dictInsert_nodup {α : Type} (imp : String → α) :
    ∀ (l : List String) (acc : List (String × α)),
      l.Nodup → (∀ x ∈ l, x ∉ acc.map Prod.fst) →
      l.foldl (fun a r => dictInsert a r (imp r)) acc = acc ++ l.map (fun r => (r, imp r)) := by
  intro l
  induction l with
  | nil =>
    intro acc _ _
    simp
  | cons r rest ih =>
    intro acc hnd hdisj
    simp only [List.foldl_cons]
    rw [dictInsert_of_not_mem acc r (imp r) (hdisj r (by simp))]
    rw [ih (acc ++ [(r, imp r)]) (List.nodup_cons.mp hnd).2 ?_]
    · simp
    · intro x hx
      have h1 := hdisj x (List.mem_cons_of_mem r hx)
      have h2 : x ≠ r := fun hh => (List.nodup_cons.mp hnd).1 (hh ▸ hx)
      simp only [List.map_append, List.mem_append, List.map_cons, List.map_nil,
        List.mem_singleton]
      push_neg
      exact ⟨h1, h2⟩

/-- C4: `import_experiment` iterates the manifest's run-id list in
reversed (oldest-first) order, and for a manifest listing distinct run
ids the resulting mapping has exactly one entry per listed source run id
— the entries are, in processing order, the reversed list paired with the
per-run importer's answers, and the mapping's size equals the number of
listed runs. -/
theorem import_experiment_reversed_complete (imp : String → String)
    (runIds : List String) (h : runIds.Nodup) :
    importExperimentModel imp runIds = runIds.reverse.map (fun r => (r, imp r)) ∧
    (importExperimentModel imp runIds).length = runIds.length := by
  have he : importExperimentModel imp runIds = runIds.reverse.map (fun r => (r, imp r)) := by
    unfold importExperimentModel importOrder
    rw [foldl_dictInsert_nodup imp runIds.reverse [] (by simpa using h) (by simp)]
    simp
  exact ⟨he, by rw [he]; simp⟩

/-- C4 witness: the manifest `["r2", "r1"]` (newest-first) — r1 is
processed before r2 and the mapping has exactly 2 entries. -/
theorem import_experiment_reversed_complete_witness :
    (["r2", "r1"] : List String).Nodup ∧
    importExperimentModel impDst ["r2", "r1"] = [("r1", "dst-r1"), ("r2", "dst-r2")] ∧
    (importExperimentModel impDst ["r2", "r1"]).length = 2 := by
  have h := import_experiment_reversed_complete impDst ["r2", "r1"] (by decide)
  exact ⟨by decide, by rw [h.1]; decide, h.2⟩

/-! ## C5 — the model-manifest patch step -/

theorem update_mlmodel_not_mem (runId : String) :
    ∀ (ps : List String) (store : String → Option MLmodel) (q : String),
      q ∉ ps → update_mlmodel_run_id runId ps store q = store q := by
  intro ps
  induction ps with
  | nil =>
    intro store q _
    rfl
  | cons p rest ih =>
    intro store q hq
    simp only [List.mem_cons] at hq
    push_neg at hq
    simp only [update_mlmodel_run_id]
    rw [ih _ q hq.2, if_neg hq.1]

/-- C5: for every model-manifest file discovered under the run's artifact
root, the patch step rewrites its `run_id` field to the destination run id
and its `artifact_path` field to the original value prefixed with
`"artifacts/"`, and writes the patched file back: a manifest with
`run_id = R_old`, `artifact_path = A` becomes
`run_id = R_new`, `artifact_path = "artifacts/" ++ A`. -/
theorem mlmodel_patch_roundtrip (runId : String) (paths : List String)
    (store : String → Option MLmodel) (p : String) (m : MLmodel)
    (hnd : paths.Nodup) (hp : p ∈ paths) (hm : store p = some m) :
    update_mlmodel_run_id runId paths store p =
      some { run_id := runId, artifact_path := "artifacts/" ++ m.artifact_path } := by
  induction paths generalizing store with
  | nil => cases hp
  | cons a rest ih =>
    rcases List.mem_cons.mp hp with rfl | hmem
    · simp only [update_mlmodel_run_id]
      rw [update_mlmodel_not_mem runId rest _ p (List.nodup_cons.mp hnd).1]
      simp [hm, patchMLmodel]
    · have hpa : p ≠ a := fun hh => (List.nodup_cons.mp hnd).1 (hh ▸ hmem)
      simp only [update_mlmodel_run_id]
      exact ih _ (List.nodup_cons.mp hnd).2 hmem (by rw [if_neg hpa]; exact hm)

/-- C5 witness: the single discovered manifest `model/MLmodel` with
`run_id = "R-old"`, `artifact_path = "model"` becomes `run_id = "R-new"`,
`artifact_path = "artifacts/model"`. -/
theorem mlmodel_patch_roundtrip_witness :
    (["model/MLmodel"] : List String).Nodup ∧
    ("model/MLmodel" : String) ∈ (["model/MLmodel"] : List String) ∧
    storeOneModel "model/MLmodel" = some { run_id := "R-old", artifact_path := "model" } ∧
    update_mlmodel_run_id "R-new" ["model/MLmodel"] storeOneModel "model/MLmodel" =
      some { run_id := "R-new", artifact_path := "artifacts/model" } := by
  refine ⟨by decide, by decide, by decide, ?_⟩
  have h := mlmodel_patch_roundtrip "R-new" ["model/MLmodel"] storeOneModel
    "model/MLmodel" { run_id := "R-old", artifact_path := "model" }
    (by decide) (by decide) (by decide)
  rw [h]
  decide

/-! ## C6 — the nested-run linking pass -/

theorem applyOne_ne (full : List (String × MapEntry)) (tags : String → Option String)
    (e : MapEntry) (d : String) (h : d ≠ e.dstRunId) :
    applyOne full tags e d = tags d := by
  unfold applyOne
  rcases h1 : e.srcParentRunId with _ | p
  · rfl
  · rcases h2 : alookup full p with _ | pe
    · simp [h2]
    · simp [h2, h]

theorem nestedTagsGo_not_mem (full : List (String × MapEntry)) :
    ∀ (todo : List (String × MapEntry)) (tags : String → Option String) (d : String),
      d ∉ todo.map (fun x => x.2.dstRunId) →
      nestedTagsGo full todo tags d = tags d := by
  intro todo
  induction todo with
  | nil =>
    intro tags d _
    rfl
  | cons hd rest ih =>
    rcases hd with ⟨s0, e0⟩
    intro tags d hd2
    simp only [List.map_cons, List.mem_cons] at hd2
    push_neg at hd2
    simp only [nestedTagsGo]
    rw [ih _ d hd2.2, applyOne_ne full tags e0 d hd2.1]

theorem nestedTagsGo_mem (full : List (String × MapEntry)) :
    ∀ (todo : List (String × MapEntry)) (tags : String → Option String)
      (src : String) (e : MapEntry),
      (src, e) ∈ todo → (todo.map (fun x => x.2.dstRunId)).Nodup →
      nestedTagsGo full todo tags e.dstRunId =
        (match e.srcParentRunId with
         | none => tags e.dstRunId
         | some p =>
           match alookup full p with
           | some pe => some pe.dstRunId
           | none => tags e.dstRunId) := by
  intro todo
  induction todo with
  | nil =>
    intro tags src e hm _
    cases hm
  | cons hd rest ih =>
    rcases hd with ⟨s0, e0⟩
    intro tags src e hm hnd
    simp only [List.map_cons, List.nodup_cons] at hnd
    rcases List.mem_cons.mp hm with heq | hmem
    · injection heq with hsrc he
      subst hsrc
      subst he
      simp only [nestedTagsGo]
      rw [nestedTagsGo_not_mem full rest _ _ hnd.1]
      unfold applyOne
      rcases hsp : e.srcParentRunId with _ | p
      · rfl
      · rcases hl : alookup full p with _ | pe
        · simp [hl]
        · simp [hl]
    · have hne : e.dstRunId ≠ e0.dstRunId := by
        intro hh
        apply hnd.1
        rw [← hh]
        exact List.mem_map_of_mem (fun x => x.2.dstRunId) hmem
      simp only [nestedTagsGo]
      rw [ih (applyOne full tags e0) src e hmem hnd.2]
      rw [applyOne_ne full tags e0 e.dstRunId hne]

/-- C6: after all runs are processed, the linking pass overwrites each
destination run's parent-run tag with the destination run id that its
source parent maps to in the ID Mapping; for a run whose source parent id
is absent from the ID Mapping the tag is left unmodified, and no error is
raised (the pass is a total function). -/
theorem nested_tags_links_parent (m : List (String × MapEntry))
    (tagOf : String → Option String) (src : String) (e : MapEntry)
    (hmem : (src, e) ∈ m)
    (hnd : (m.map (fun x => x.2.dstRunId)).Nodup) :
    nested_tags m tagOf e.dstRunId =
      (match e.srcParentRunId with
       | none => tagOf e.dstRunId
       | some p =>
         match alookup m p with
         | some pe => some pe.dstRunId
         | none => tagOf e.dstRunId) :=
  nestedTagsGo_mem m m tagOf src e hmem hnd

/-- C6 witness: in `mapC6`, run s2 (parent s1, imported as d1) gets its
parent-tag overwritten to `"d1"`, while run s3 (parent absent from the
mapping) keeps its replayed tag `"orig-parent"`. -/
theorem nested_tags_links_parent_witness :
    (("s2", ({ dstRunId := "d2", srcParentRunId := some "s1" } : MapEntry)) ∈ mapC6) ∧
    nested_tags mapC6 tagC6 "d2" = some "d1" ∧
    nested_tags mapC6 tagC6 "d3" = some "orig-parent" := by
  have h2 := nested_tags_links_parent mapC6 tagC6 "s2"
    { dstRunId := "d2", srcParentRunId := some "s1" } (by decide) (by decide)
  have h3 := nested_tags_links_parent mapC6 tagC6 "s3"
    { dstRunId := "d3", srcParentRunId := some "missing" } (by decide) (by decide)
  exact ⟨by decide, by rw [h2]; decide, by rw [h3]; decide⟩

/-! ## C7 — idempotent experiment creation -/

theorem alookup_append_right {α : Type} (l : List (String × α)) (k : String) (v : α)
    (h : alookup l k = none) : alookup (l ++ [(k, v)]) k = some v := by
  induction l with
  | nil => simp [alookup]
  | cons hd tl ih =>
    rcases hd with ⟨k', v'⟩
    by_cases hk : k' = k
    · simp [alookup, hk] at h
    · simp only [alookup, hk, if_false, List.cons_append] at h ⊢
      exact ih h

/-- C7: destination experiment creation is idempotent — if a call to
`set_experiment` returned experiment id `id` leaving the registry in state
`b2`, then calling it again with the same name raises no error, falls back
to lookup on the already-exists condition, and returns the same id with
the registry unchanged. -/
theorem set_experiment_idempotent (intoDbx : Bool) (mkE : Option String)
    (b : ExpBackend) (name id : String) (b2 : ExpBackend)
    (h : set_experiment intoDbx mkE b name = Except.ok (id, b2)) :
    set_experiment intoDbx mkE b2 name = Except.ok (id, b2) := by
  unfold set_experiment create_experiment at h ⊢
  rcases hmk : (if intoDbx then mkE else none) with _ | c
  · rw [hmk] at h
    rcases hlk : alookup b.exps name with _ | j
    · rw [hlk] at h
      simp only [Option.isSome_none, Bool.false_eq_true, if_false, Except.ok.injEq,
        Prod.mk.injEq] at h
      obtain ⟨hid, hb2⟩ := h
      subst hid
      subst hb2
      have hlk2 := alookup_append_right b.exps name ("exp" ++ toString b.counter) hlk
      simp [hlk2]
    · rw [hlk] at h
      simp only [Option.isSome_some, if_true, Except.ok.injEq, Prod.mk.injEq] at h
      obtain ⟨hj, hb⟩ := h
      subst hj
      subst hb
      simp [hlk]
  · rw [hmk] at h
    simp at h

/-- C7 witness: creating `"exp-A"` on an empty registry returns `"exp0"`;
the second call returns the same id and leaves the registry unchanged. -/
theorem set_experiment_idempotent_witness :
    set_experiment false none { exps := [], counter := 0 } "exp-A" =
      Except.ok ("exp0", { exps := [("exp-A", "exp0")], counter := 1 }) ∧
    set_experiment false none { exps := [("exp-A", "exp0")], counter := 1 } "exp-A" =
      Except.ok ("exp0", { exps := [("exp-A", "exp0")], counter := 1 }) :=
  ⟨by decide,
   set_experiment_idempotent false none { exps := [], counter := 0 } "exp-A" "exp0"
     { exps := [("exp-A", "exp0")], counter := 1 } (by decide)⟩

end MlflowEI
